import Mathlib

/-!
Verification of the console-mode display launcher (src/main.rs): a shallow
embedding of the display catalog, the EDID capability inferencer, and the
TUI selection engine, with theorems settling the specification claims.
-/

namespace ConsoleMode

/-- ASCII whitespace, standing in for the whitespace class used by the
source's `str::trim`, `\s` in its regex, and blank-sensitive checks. -/
def isSpaceChar (c : Char) : Bool :=
  c = ' ' || c = '\t' || c = '\n' || c = '\r' || c = '\x0b' || c = '\x0c'

/-- ASCII decimal digit, standing in for `\d` in the source's regex and for
the digits accepted by `u32::from_str`. -/
def isDigitChar (c : Char) : Bool :=
  '0' ≤ c && c ≤ '9'

/-- `hay` starts with `pat` (Rust `str::starts_with`). -/
def startsWithSub : List Char → List Char → Bool
  | _, [] => true
  | [], _ :: _ => false
  | a :: as, b :: bs => a = b && startsWithSub as bs

/-- `hay` contains `pat` as a contiguous substring (Rust `str::contains`). -/
def containsSub : List Char → List Char → Bool
  | [], pat => pat.isEmpty
  | a :: as, pat => startsWithSub (a :: as) pat || containsSub as pat

/-- Rust `str::trim`: strip leading and trailing whitespace. -/
def trimChars (s : List Char) : List Char :=
  ((s.dropWhile isSpaceChar).reverse.dropWhile isSpaceChar).reverse

/-- Rust `str::split(sep)`: split at every occurrence of `sep`, keeping
empty pieces. -/
def splitOnChar (sep : Char) : List Char → List (List Char)
  | [] => [[]]
  | c :: t =>
    match splitOnChar sep t with
    | h :: r => if c = sep then [] :: h :: r else (c :: h) :: r
    | [] => [[]]

/-- Numeric value of a digit string (most significant digit first). -/
def digitsVal (ds : List Char) : Nat :=
  ds.foldl (fun a c => a * 10 + (c.toNat - '0'.toNat)) 0

/-- Rust `str::parse::<u32>()`: an optional leading `+`, then one or more
digits, rejecting values that overflow `u32`. -/
def parse_u32_str (s : List Char) : Option Nat :=
  let t := match s with
    | '+' :: rest => rest
    | _ => s
  if t.isEmpty then none
  else if t.all isDigitChar then
    if digitsVal t < 4294967296 then some (digitsVal t) else none
  else none

/-- Rust `str::lines().next()`: first line of the text, `none` when the text
is empty, with a trailing carriage return stripped. -/
def firstLine (s : List Char) : Option (List Char) :=
  if s.isEmpty then none
  else
    let l := s.takeWhile (fun c => c != '\n')
    some (match l.getLast? with
          | some '\r' => l.dropLast
          | _ => l)

/-- `DisplayInfo` from src/main.rs (the `PathBuf` connector path is kept as
its textual form). -/
structure DisplayInfo where
  connector_name : String
  connector_path : String
  resolution : String
  width : Nat
  height : Nat
deriving DecidableEq

/-- `DisplayCapabilities` from src/main.rs (`u32` fields as `Nat`; no
arithmetic near the `u32` range occurs). -/
structure DisplayCapabilities where
  vrr : Bool
  hdr : Bool
  max_refresh_rate : Nat
  max_bpc : Nat
deriving DecidableEq

/-- The fields of `Args` consumed by capability detection and selection. -/
structure Args where
  display : Option String
  resolution : Option String
  refresh_rate : Option Nat
  force_vrr : Bool
  force_hdr : Bool
  no_vrr : Bool
  no_hdr : Bool
  safe_mode : Bool
deriving DecidableEq

/-- `parse_resolution` from src/main.rs: trim, split on `x`, demand exactly
two `u32` fields. -/
def parse_resolution (res : List Char) : Except String (Nat × Nat) :=
  match splitOnChar 'x' (trimChars res) with
  | [w, h] =>
    match parse_u32_str w with
    | none => Except.error "Invalid width in resolution"
    | some width =>
      match parse_u32_str h with
      | none => Except.error "Invalid height in resolution"
      | some height => Except.ok (width, height)
  | _ => Except.error "Invalid resolution format"

/-- Outcome of reading one file of a connector directory: the file may be
absent, its read may fail, or it yields text. -/
inductive FsRead where
  | absent
  | readErr (msg : String)
  | content (text : String)
deriving DecidableEq

/-- One `/sys/class/drm` directory entry: its name, its `status` file and
its `modes` file. -/
structure ConnectorDir where
  name : String
  status : FsRead
  modes : FsRead
deriving DecidableEq

/-- The `/sys/class/drm` root: unreadable, or a list of entries in
enumeration order. -/
inductive DrmRoot where
  | unreadable (msg : String)
  | entries (dirs : List ConnectorDir)
deriving DecidableEq

/-- The connected-entry half of one `detect_displays` loop iteration
(src/main.rs lines 264-278): a missing `modes` file or a `modes` text with
no first line skips the entry, a failing `modes` read or a malformed first
mode line is fatal, and otherwise the entry's output is prepended to the
result of the remaining entries. -/
def detect_modes_step (name : String) (rest : Except String (List DisplayInfo)) :
    FsRead → Except String (List DisplayInfo)
  | FsRead.absent => rest
  | FsRead.readErr e => Except.error e
  | FsRead.content modes =>
    match firstLine modes.data with
    | none => rest
    | some resolution =>
      match parse_resolution resolution with
      | Except.error e => Except.error e
      | Except.ok wh =>
        match rest with
        | Except.error e => Except.error e
        | Except.ok ds =>
          Except.ok ({ connector_name := name,
                       connector_path := "/sys/class/drm/" ++ name,
                       resolution := String.mk resolution,
                       width := wh.1, height := wh.2 } :: ds)

/-- The `status`-file half of one `detect_displays` loop iteration
(src/main.rs lines 253-263): a missing `status` file skips the entry, a
failing read is fatal, and only the trimmed content `connected` proceeds to
the `modes` step. -/
def detect_status_step (name : String) (modes : FsRead)
    (rest : Except String (List DisplayInfo)) :
    FsRead → Except String (List DisplayInfo)
  | FsRead.absent => rest
  | FsRead.readErr _ => Except.error "Failed to read status file"
  | FsRead.content status_raw =>
    if trimChars status_raw.data = "connected".data then
      detect_modes_step name rest modes
    else rest

/-- One `detect_displays` loop iteration: entries whose name is not of the
`card*-*` shape are passed over (src/main.rs line 249). -/
def detect_step (entry : ConnectorDir) (rest : Except String (List DisplayInfo)) :
    Except String (List DisplayInfo) :=
  if !(startsWithSub entry.name.data "card".data && entry.name.data.contains '-') then
    rest
  else detect_status_step entry.name entry.modes rest entry.status

/-- The per-entry loop of `detect_displays` (src/main.rs lines 241-280),
folded over the enumeration order of the directory entries. -/
def detect_displays_entries : List ConnectorDir → Except String (List DisplayInfo)
  | [] => Except.ok []
  | entry :: rest => detect_step entry (detect_displays_entries rest)

/-- `detect_displays` from src/main.rs: fail on an unreadable root,
otherwise run the per-entry loop. -/
def detect_displays : DrmRoot → Except String (List DisplayInfo)
  | DrmRoot.unreadable e => Except.error e
  | DrmRoot.entries dirs => detect_displays_entries dirs

/-- The connector directories the enumeration loop passes over without
producing output and without failing: a name not of the `card*-*` shape, a
missing `status` file, a status other than `connected`, a missing `modes`
file, or `modes` text without a first line. -/
def skippable (entry : ConnectorDir) : Bool :=
  !(startsWithSub entry.name.data "card".data && entry.name.data.contains '-')
  || (match entry.status with
      | FsRead.absent => true
      | FsRead.readErr _ => false
      | FsRead.content status_raw =>
        if trimChars status_raw.data = "connected".data then
          match entry.modes with
          | FsRead.absent => true
          | FsRead.readErr _ => false
          | FsRead.content modes =>
            match firstLine modes.data with
            | none => true
            | some _ => false
        else true)

/-- A match of the source regex `(\d+)\.?\d*\s*Hz` anchored at the start of
`s`: a maximal digit run (the capture), an optional point followed by a
digit run, optional whitespace, then `Hz`. On success, returns the captured
digits and the text after the whole match. None of the quantifiers ever
needs to give characters back for this pattern, so maximal runs are exact. -/
def hzMatchAt (s : List Char) : Option (List Char × List Char) :=
  let ds := s.takeWhile isDigitChar
  if ds.isEmpty then none
  else
    let r1 := s.dropWhile isDigitChar
    let r2 := match r1 with
      | '.' :: t => t.dropWhile isDigitChar
      | _ => r1
    let r3 := r2.dropWhile isSpaceChar
    match r3 with
    | 'H' :: 'z' :: rest => some (ds, rest)
    | _ => none

/-- Scan for successive non-overlapping matches of the refresh-rate regex,
as `captures_iter` does: try each start position left to right and resume
after the end of each match. Every step consumes at least one character, so
the input length bounds the recursion. -/
def hzCapturesAux : Nat → List Char → List (List Char)
  | 0, _ => []
  | _ + 1, [] => []
  | fuel + 1, c :: t =>
    match hzMatchAt (c :: t) with
    | some (ds, rest) => ds :: hzCapturesAux fuel rest
    | none => hzCapturesAux fuel t

/-- All capture-group-1 digit strings of the refresh-rate regex over the
whole text. -/
def hzCaptures (s : List Char) : List (List Char) :=
  hzCapturesAux s.length s

/-- `cap[1].parse::<u32>()` on a capture: the capture is all digits, so only
`u32` overflow can fail. -/
def parseU32 (ds : List Char) : Option Nat :=
  if digitsVal ds < 4294967296 then some (digitsVal ds) else none

/-- The VRR marker substrings of src/main.rs. -/
def vrr_patterns : List (List Char) :=
  ["Variable Refresh Rate".data,
   "FreeSync".data,
   "G-SYNC Compatible".data,
   "VESA VRR".data,
   "Vendor-Specific Data Block (AMD)".data]

/-- The HDR marker substrings of src/main.rs. -/
def hdr_patterns : List (List Char) :=
  ["HDR Static Metadata".data,
   "HDR10".data,
   "SMPTE ST 2084".data]

/-- `parse_edid_capabilities` from src/main.rs lines 463-528: marker scans
for VRR and HDR, the 12-before-10 bit-depth check, the refresh-rate fold
starting from 60 with the 500 ceiling, and the geometry fallback guarded by
`max_refresh_rate < 60`. -/
def parse_edid_capabilities (edid_text : List Char) (display : DisplayInfo) :
    DisplayCapabilities :=
  let vrr := vrr_patterns.any (fun p => containsSub edid_text p)
  let hdr := hdr_patterns.any (fun p => containsSub edid_text p)
  let max_bpc :=
    if containsSub edid_text "12 bits per".data
       || containsSub edid_text "Bits per primary color channel: 12".data then 12
    else if containsSub edid_text "10 bits per".data
       || containsSub edid_text "Bits per primary color channel: 10".data then 10
    else 8
  let rates := (hzCaptures edid_text).filterMap parseU32
  let max_rate := rates.foldl (fun m r => if r > m ∧ r ≤ 500 then r else m) 60
  let max_refresh_rate :=
    if max_rate < 60 then (if display.width ≥ 2560 then 144 else 60) else max_rate
  { vrr := vrr, hdr := hdr, max_refresh_rate := max_refresh_rate, max_bpc := max_bpc }

/-- `default_capabilities` from src/main.rs. -/
def default_capabilities (display : DisplayInfo) : DisplayCapabilities :=
  { vrr := false, hdr := false,
    max_refresh_rate := if display.width ≥ 2560 then 144 else 60,
    max_bpc := 8 }

/-- Outcome of `fs::read` on the connector's `edid` file. -/
inductive EdidRead where
  | readErr (msg : String)
  | bytes (data : List Nat)
deriving DecidableEq

/-- The environment `detect_capabilities` probes: whether the `edid` file
exists and is a file, the result of reading it, and the decoded text when
the external `edid-decode` process ran successfully. -/
structure EdidEnv where
  edid_file_ok : Bool
  edid_read : EdidRead
  decode_output : Option String
deriving DecidableEq

/-- `detect_capabilities` from src/main.rs lines 390-461: the safe-mode
early return, the default paths for a missing or empty EDID file, the
fatal EDID read error, the decode path, and the user-override section
(forced-on before forced-off, then the explicit refresh-rate override). -/
def detect_capabilities (display : DisplayInfo) (args : Args) (env : EdidEnv) :
    Except String DisplayCapabilities :=
  if args.safe_mode then
    Except.ok { vrr := false, hdr := false, max_refresh_rate := 60, max_bpc := 8 }
  else if !env.edid_file_ok then
    Except.ok (default_capabilities display)
  else
    match env.edid_read with
    | EdidRead.readErr _ => Except.error "Failed to read EDID file"
    | EdidRead.bytes edid_data =>
      if edid_data.isEmpty then Except.ok (default_capabilities display)
      else
        let capabilities :=
          match env.decode_output with
          | some edid_text => parse_edid_capabilities edid_text.data display
          | none => default_capabilities display
        let caps1 :=
          if args.force_vrr then { capabilities with vrr := true }
          else if args.no_vrr then { capabilities with vrr := false }
          else capabilities
        let caps2 :=
          if args.force_hdr then { caps1 with hdr := true }
          else if args.no_hdr then { caps1 with hdr := false }
          else caps1
        let caps3 :=
          match args.refresh_rate with
          | some rate => { caps2 with max_refresh_rate := rate }
          | none => caps2
        Except.ok caps3

/-- `InputEvent` from src/main.rs: the normalized controller events. -/
inductive InputEvent where
  | up
  | down
  | select
  | quit
deriving DecidableEq

/-- The key codes the TUI loop distinguishes (crossterm `KeyCode`). -/
inductive KeyCode where
  | up
  | down
  | enter
  | esc
  | char (c : Char)
deriving DecidableEq

/-- crossterm `KeyEventKind`: only presses are acted on. -/
inductive KeyEventKind where
  | press
  | release
deriving DecidableEq

/-- A keyboard key event as the TUI loop sees it. -/
structure KeyEvent where
  code : KeyCode
  kind : KeyEventKind
deriving DecidableEq

/-- `TuiApp` from src/main.rs: the display list, the ratatui list
selection (`list_state.selected()`), the quit flag and the chosen display. -/
structure TuiApp where
  displays : List DisplayInfo
  selected : Option Nat
  should_quit : Bool
  selected_display : Option DisplayInfo
deriving DecidableEq

/-- `TuiApp::new`: select index 0 when the list is non-empty. -/
def TuiApp.new (displays : List DisplayInfo) : TuiApp :=
  { displays := displays
    selected := if displays.isEmpty then none else some 0
    should_quit := false
    selected_display := none }

/-- `TuiApp::next`: move the highlight down with wraparound; no-op on an
empty list. -/
def TuiApp.next (app : TuiApp) : TuiApp :=
  if app.displays.isEmpty then app
  else
    let i := match app.selected with
      | some i => if i ≥ app.displays.length - 1 then 0 else i + 1
      | none => 0
    { app with selected := some i }

/-- `TuiApp::previous`: move the highlight up with wraparound; no-op on an
empty list. -/
def TuiApp.previous (app : TuiApp) : TuiApp :=
  if app.displays.isEmpty then app
  else
    let i := match app.selected with
      | some i => if i = 0 then app.displays.length - 1 else i - 1
      | none => 0
    { app with selected := some i }

/-- `TuiApp::select`: record the highlighted display and request quit, when
the highlight is inside the list. -/
def TuiApp.select (app : TuiApp) : TuiApp :=
  match app.selected with
  | some i =>
    if h : i < app.displays.length then
      { app with selected_display := some (app.displays.get ⟨i, h⟩),
                 should_quit := true }
    else app
  | none => app

/-- The controller branch of the TUI loop (src/main.rs lines 1099-1106). -/
def applyControllerInput (app : TuiApp) (input : InputEvent) : TuiApp :=
  match input with
  | InputEvent.up => app.previous
  | InputEvent.down => app.next
  | InputEvent.select => app.select
  | InputEvent.quit => { app with should_quit := true }

/-- The keyboard branch of the TUI loop (src/main.rs lines 1110-1120):
only key presses act; arrows and their letter aliases navigate, enter and
space select, escape and q quit. -/
def applyKeyEvent (app : TuiApp) (key : KeyEvent) : TuiApp :=
  if key.kind = KeyEventKind.press then
    match key.code with
    | KeyCode.up => app.previous
    | KeyCode.down => app.next
    | KeyCode.enter => app.select
    | KeyCode.esc => { app with should_quit := true }
    | KeyCode.char c =>
      if c = 'k' then app.previous
      else if c = 'j' then app.next
      else if c = ' ' then app.select
      else if c = 'q' then { app with should_quit := true }
      else app
  else app

/-- One iteration's input handling: the single drained controller event is
applied before the single polled keyboard event. -/
def handleInputs (app : TuiApp) (ctrl : Option InputEvent) (kbd : Option KeyEvent) :
    TuiApp :=
  let app1 := match ctrl with
    | some input => applyControllerInput app input
    | none => app
  match kbd with
  | some key => applyKeyEvent app1 key
  | none => app1

/-- The spec's `NavigationEvent` variants an empty-list session can see. -/
inductive NavEv where
  | moveUp
  | moveDown
  | confirm
deriving DecidableEq

/-- Dispatch of a `NavigationEvent` to the selection state, as both loop
branches do. -/
def applyNav (app : TuiApp) (e : NavEv) : TuiApp :=
  match e with
  | NavEv.moveUp => app.previous
  | NavEv.moveDown => app.next
  | NavEv.confirm => app.select

/-- Apply `f` to the state `n` times. -/
def iterSteps (f : TuiApp → TuiApp) : Nat → TuiApp → TuiApp
  | 0, a => a
  | n + 1, a => iterSteps f n (f a)

/-- Outcome of the keyboard half of one loop iteration: `event::poll` may
fail, `event::read` may fail, the poll may report nothing, or a key or
non-key event is read. -/
inductive KbdPoll where
  | pollErr (msg : String)
  | readErr (msg : String)
  | noEvent
  | otherEvent
  | key (ev : KeyEvent)
deriving DecidableEq

/-- The external happenings of one iteration of the selection loop: the
draw result, the at-most-one controller event `try_recv` yields, and the
keyboard poll outcome. -/
structure LoopTick where
  draw : Option String
  ctrl : Option InputEvent
  kbd : KbdPoll
deriving DecidableEq

/-- How the selection loop ended: a normal `should_quit` break, an error
propagating out of an iteration, or the scripted ticks ran out with the
loop still pending. -/
inductive LoopResult where
  | finished (app : TuiApp)
  | errExit (msg : String) (app : TuiApp)
  | outOfTicks (app : TuiApp)
deriving DecidableEq

/-- The selection loop of `run_tui_launcher` (src/main.rs lines 1093-1126):
per iteration draw (`?`), drain at most one controller event, poll and read
at most one key event (`?` on both), then break when `should_quit`. An
error anywhere leaves the loop at once via `?`. -/
def tuiLoopSteps : List LoopTick → TuiApp → LoopResult
  | [], app => LoopResult.outOfTicks app
  | tick :: rest, app =>
    match tick.draw with
    | some e => LoopResult.errExit e app
    | none =>
      let app1 := match tick.ctrl with
        | some input => applyControllerInput app input
        | none => app
      match tick.kbd with
      | KbdPoll.pollErr e => LoopResult.errExit e app1
      | KbdPoll.readErr e => LoopResult.errExit e app1
      | KbdPoll.noEvent =>
        if app1.should_quit then LoopResult.finished app1 else tuiLoopSteps rest app1
      | KbdPoll.otherEvent =>
        if app1.should_quit then LoopResult.finished app1 else tuiLoopSteps rest app1
      | KbdPoll.key kev =>
        let app2 := applyKeyEvent app1 kev
        if app2.should_quit then LoopResult.finished app2 else tuiLoopSteps rest app2

/-- Terminal raw-input and alternate-screen mode. -/
structure TermState where
  raw_mode : Bool
  alt_screen : Bool
deriving DecidableEq

/-- Observable outcome of the interactive part of `run_tui_launcher`: the
returned selection or error, together with the terminal state at the moment
control returns to the caller. -/
inductive TuiRun where
  | ok (sel : Option DisplayInfo) (term : TermState)
  | err (msg : String) (term : TermState)
  | undetermined
deriving DecidableEq

/-- The terminal-scoped part of `run_tui_launcher` (src/main.rs lines
1079-1144): raw mode and the alternate screen are acquired, the loop runs,
and `disable_raw_mode` / `LeaveAlternateScreen` (lines 1129-1130) execute
only after a normal loop break — an error propagating out of the loop via
`?` returns with both still acquired. -/
def run_tui_launcher_model (displays : List DisplayInfo) (ticks : List LoopTick) :
    TuiRun :=
  let acquired : TermState := { raw_mode := true, alt_screen := true }
  match tuiLoopSteps ticks (TuiApp.new displays) with
  | LoopResult.finished app =>
    TuiRun.ok app.selected_display { raw_mode := false, alt_screen := false }
  | LoopResult.errExit e _ => TuiRun.err e acquired
  | LoopResult.outOfTicks _ => TuiRun.undetermined

lemma applyNav_nil (e : NavEv) : applyNav (TuiApp.new []) e = TuiApp.new [] := by
  cases e <;> rfl

/-- C8: on an empty Output list every sequence of MoveUp, MoveDown and
Confirm events leaves the selection state at its initial value, so no
Chosen outcome (no `selected_display`) ever arises. -/
theorem c8_empty_list_inert (evs : List NavEv) :
    List.foldl applyNav (TuiApp.new []) evs = TuiApp.new [] ∧
    (List.foldl applyNav (TuiApp.new []) evs).selected_display = none := by
  have h : List.foldl applyNav (TuiApp.new []) evs = TuiApp.new [] := by
    induction evs with
    | nil => rfl
    | cons e t ih => rw [List.foldl_cons, applyNav_nil]; exact ih
  exact ⟨h, by rw [h]; rfl⟩

/-- C5: with safe mode requested, capability detection returns the fixed
conservative record whatever the display geometry and EDID environment. -/
theorem c5_safe_mode_conservative (display : DisplayInfo) (args : Args) (env : EdidEnv)
    (h : args.safe_mode = true) :
    detect_capabilities display args env =
      Except.ok { vrr := false, hdr := false, max_refresh_rate := 60, max_bpc := 8 } := by
  simp [detect_capabilities, h]

theorem c5_safe_mode_conservative_witness :
    (Args.mk none none none false false false false true).safe_mode = true ∧
    detect_capabilities ⟨"card1-HDMI-A-1", "/sys/class/drm/card1-HDMI-A-1", "3840x2160", 3840, 2160⟩
      (Args.mk none none none false false false false true)
      ⟨true, EdidRead.bytes [0, 255], some "FreeSync 240 Hz HDR10"⟩ =
      Except.ok { vrr := false, hdr := false, max_refresh_rate := 60, max_bpc := 8 } :=
  ⟨rfl, c5_safe_mode_conservative _ _ _ rfl⟩

/-- C10: safe mode returns before the user-override section, so even
force_vrr, force_hdr and an explicit refresh-rate override leave the
conservative record untouched. -/
theorem c10_safe_mode_ignores_overrides (display : DisplayInfo) (env : EdidEnv)
    (d r : Option String) (rr : Option Nat) (fv fh nv nh : Bool) :
    detect_capabilities display ⟨d, r, rr, fv, fh, nv, nh, true⟩ env =
      Except.ok { vrr := false, hdr := false, max_refresh_rate := 60, max_bpc := 8 } := by
  simp [detect_capabilities]

/-- C3: evaluating the capability parser on empty decoded text shows the
geometry fallback never fires: the refresh-rate fold starts at 60, so
`max_refresh_rate < 60` is unreachable and a width-3840 display still gets
60, not the documented 144 (width 1920 also gets 60). -/
theorem c3_dead_geometry_fallback :
    (parse_edid_capabilities []
      ⟨"card1-HDMI-A-1", "/sys/class/drm/card1-HDMI-A-1", "3840x2160", 3840, 2160⟩).max_refresh_rate = 60 ∧
    (parse_edid_capabilities []
      ⟨"card0-eDP-1", "/sys/class/drm/card0-eDP-1", "1920x1080", 1920, 1080⟩).max_refresh_rate = 60 :=
  ⟨rfl, rfl⟩

/-- C1: evaluating the modelled `run_tui_launcher` on its three exit paths:
a Chosen exit and a Cancelled exit restore the terminal, but an error
propagating out of a loop iteration (here a failed draw) returns with raw
mode and the alternate screen still active. -/
theorem c1_terminal_left_acquired_on_error :
    run_tui_launcher_model
      [⟨"card0-DP-1", "p0", "1920x1080", 1920, 1080⟩, ⟨"card1-HDMI-A-1", "p1", "3840x2160", 3840, 2160⟩]
      [⟨none, none, KbdPoll.key ⟨KeyCode.enter, KeyEventKind.press⟩⟩] =
      TuiRun.ok (some ⟨"card0-DP-1", "p0", "1920x1080", 1920, 1080⟩) ⟨false, false⟩ ∧
    run_tui_launcher_model
      [⟨"card0-DP-1", "p0", "1920x1080", 1920, 1080⟩, ⟨"card1-HDMI-A-1", "p1", "3840x2160", 3840, 2160⟩]
      [⟨none, none, KbdPoll.key ⟨KeyCode.esc, KeyEventKind.press⟩⟩] =
      TuiRun.ok none ⟨false, false⟩ ∧
    run_tui_launcher_model
      [⟨"card0-DP-1", "p0", "1920x1080", 1920, 1080⟩, ⟨"card1-HDMI-A-1", "p1", "3840x2160", 3840, 2160⟩]
      [⟨some "draw failed", none, KbdPoll.noEvent⟩] =
      TuiRun.err "draw failed" ⟨true, true⟩ :=
  ⟨rfl, rfl, rfl⟩

lemma skip_step (entry : ConnectorDir) (r : Except String (List DisplayInfo))
    (h : skippable entry = true) :
    detect_step entry r = r := by
  obtain ⟨name, status, modes⟩ := entry
  unfold skippable at h
  unfold detect_step
  simp only at h
  cases hn : (startsWithSub name.data "card".data && name.data.contains '-') with
  | false => rfl
  | true =>
    rw [hn] at h
    simp only [Bool.not_true, Bool.false_or] at h
    simp only [Bool.not_true]
    rw [if_neg (by simp)]
    cases status with
    | absent => rfl
    | readErr m => simp at h
    | content s =>
      simp only at h
      simp only [detect_status_step]
      by_cases hc : trimChars s.data = "connected".data
      · rw [if_pos hc] at h ⊢
        cases modes with
        | absent => rfl
        | readErr m => simp at h
        | content ms =>
          simp only at h
          simp only [detect_modes_step]
          cases hf : firstLine ms.data with
          | none => rfl
          | some res => rw [hf] at h; simp at h
      · rw [if_neg hc]

lemma skip_middle (before after : List ConnectorDir) (entry : ConnectorDir)
    (h : skippable entry = true) :
    detect_displays_entries (before ++ entry :: after) =
      detect_displays_entries (before ++ after) := by
  induction before with
  | nil => exact skip_step entry (detect_displays_entries after) h
  | cons b t ih => exact congrArg (detect_step b) ih


/-- C2 counterexample: a readable connected connector followed by a
connector whose existing `status` file fails to read makes the whole
enumeration fail, instead of returning the readable connector. -/
theorem c2_unreadable_connector_is_fatal :
    detect_displays (DrmRoot.entries
      [⟨"card0-DP-1", FsRead.content "connected\n", FsRead.content "1920x1080\n1280x720\n"⟩,
       ⟨"card0-HDMI-A-1", FsRead.readErr "permission denied", FsRead.absent⟩]) =
      Except.error "Failed to read status file" :=
  rfl

/-- C2 amended: a connector with a missing status or modes file, a
non-connected status, or empty modes text is skipped and enumeration of the
remaining connectors continues; but a connector whose existing status file
fails to read, one whose existing modes file fails to read, or one whose
first advertised mode line is malformed aborts the whole enumeration. -/
theorem c2_skip_vs_fatal (before after after2 after3 after4 : List ConnectorDir)
    (entry : ConnectorDir) (name name2 name3 msg msg2 : String)
    (modes : FsRead) (st2 st3 ms3 : String) (res : List Char) (e : String)
    (hskip : skippable entry = true)
    (hname : (startsWithSub name.data "card".data && name.data.contains '-') = true)
    (hname2 : (startsWithSub name2.data "card".data && name2.data.contains '-') = true)
    (hst2 : trimChars st2.data = "connected".data)
    (hname3 : (startsWithSub name3.data "card".data && name3.data.contains '-') = true)
    (hst3 : trimChars st3.data = "connected".data)
    (hfl : firstLine ms3.data = some res)
    (hparse : parse_resolution res = Except.error e) :
    detect_displays (DrmRoot.entries (before ++ entry :: after)) =
      detect_displays (DrmRoot.entries (before ++ after)) ∧
    detect_displays (DrmRoot.entries (⟨name, FsRead.readErr msg, modes⟩ :: after2)) =
      Except.error "Failed to read status file" ∧
    detect_displays (DrmRoot.entries
        (⟨name2, FsRead.content st2, FsRead.readErr msg2⟩ :: after3)) =
      Except.error msg2 ∧
    detect_displays (DrmRoot.entries
        (⟨name3, FsRead.content st3, FsRead.content ms3⟩ :: after4)) =
      Except.error e := by
  refine ⟨skip_middle before after entry hskip, ?_, ?_, ?_⟩
  · show detect_step ⟨name, FsRead.readErr msg, modes⟩ (detect_displays_entries after2) =
      Except.error "Failed to read status file"
    unfold detect_step
    dsimp only
    rw [hname]
    rfl
  · show detect_step ⟨name2, FsRead.content st2, FsRead.readErr msg2⟩
        (detect_displays_entries after3) = Except.error msg2
    unfold detect_step
    dsimp only
    rw [hname2]
    show detect_status_step name2 (FsRead.readErr msg2) (detect_displays_entries after3)
        (FsRead.content st2) = Except.error msg2
    simp only [detect_status_step]
    rw [if_pos hst2]
    rfl
  · show detect_step ⟨name3, FsRead.content st3, FsRead.content ms3⟩
        (detect_displays_entries after4) = Except.error e
    unfold detect_step
    dsimp only
    rw [hname3]
    show detect_status_step name3 (FsRead.content ms3) (detect_displays_entries after4)
        (FsRead.content st3) = Except.error e
    simp only [detect_status_step]
    rw [if_pos hst3]
    simp only [detect_modes_step]
    rw [hfl]
    simp only
    rw [hparse]

theorem c2_skip_vs_fatal_witness :
    skippable ⟨"card0-DP-2", FsRead.content "disconnected\n", FsRead.absent⟩ = true ∧
    (startsWithSub ("card1-HDMI-A-1" : String).data "card".data
      && ("card1-HDMI-A-1" : String).data.contains '-') = true ∧
    (startsWithSub ("card2-DP-1" : String).data "card".data
      && ("card2-DP-1" : String).data.contains '-') = true ∧
    trimChars ("connected\n" : String).data = ("connected" : String).data ∧
    (startsWithSub ("card2-DP-3" : String).data "card".data
      && ("card2-DP-3" : String).data.contains '-') = true ∧
    firstLine ("notaresolution\n" : String).data = some ("notaresolution" : String).data ∧
    parse_resolution ("notaresolution" : String).data =
      Except.error "Invalid resolution format" ∧
    (detect_displays (DrmRoot.entries
       ([⟨"card0-DP-1", FsRead.content "connected\n", FsRead.content "1920x1080\n"⟩] ++
        ⟨"card0-DP-2", FsRead.content "disconnected\n", FsRead.absent⟩ ::
        [⟨"card1-eDP-1", FsRead.content "connected\n", FsRead.content "2560x1440\n"⟩])) =
     detect_displays (DrmRoot.entries
       ([⟨"card0-DP-1", FsRead.content "connected\n", FsRead.content "1920x1080\n"⟩] ++
        [⟨"card1-eDP-1", FsRead.content "connected\n", FsRead.content "2560x1440\n"⟩])) ∧
     detect_displays (DrmRoot.entries
       [⟨"card1-HDMI-A-1", FsRead.readErr "EACCES", FsRead.absent⟩]) =
       Except.error "Failed to read status file" ∧
     detect_displays (DrmRoot.entries
       [⟨"card2-DP-1", FsRead.content "connected\n", FsRead.readErr "EIO"⟩]) =
       Except.error "EIO" ∧
     detect_displays (DrmRoot.entries
       [⟨"card2-DP-3", FsRead.content "connected\n", FsRead.content "notaresolution\n"⟩]) =
       Except.error "Invalid resolution format") :=
  ⟨by decide, by decide, by decide, by decide, by decide, by decide, rfl,
   c2_skip_vs_fatal
     [⟨"card0-DP-1", FsRead.content "connected\n", FsRead.content "1920x1080\n"⟩]
     [⟨"card1-eDP-1", FsRead.content "connected\n", FsRead.content "2560x1440\n"⟩]
     [] [] []
     ⟨"card0-DP-2", FsRead.content "disconnected\n", FsRead.absent⟩
     "card1-HDMI-A-1" "card2-DP-1" "card2-DP-3" "EACCES" "EIO"
     FsRead.absent "connected\n" "connected\n" "notaresolution\n"
     (("notaresolution" : String).data) "Invalid resolution format"
     (by decide) (by decide) (by decide) (by decide) (by decide) (by decide)
     (by decide) rfl⟩

lemma fold_step_ge (l : List Nat) : ∀ m : Nat,
    m ≤ l.foldl (fun m r => if r > m ∧ r ≤ 500 then r else m) m := by
  induction l with
  | nil => intro m; exact le_refl m
  | cons r t ih =>
    intro m
    rw [List.foldl_cons]
    refine le_trans ?_ (ih _)
    split
    · next hcond => exact le_of_lt hcond.1
    · exact le_refl m

lemma fold_step_eq_fold_max (l : List Nat) : ∀ m : Nat, 60 ≤ m →
    l.foldl (fun m r => if r > m ∧ r ≤ 500 then r else m) m =
      (l.filter (fun r => decide (60 < r ∧ r ≤ 500))).foldl max m := by
  induction l with
  | nil => intro m _; rfl
  | cons r t ih =>
    intro m hm
    rw [List.foldl_cons]
    by_cases hf : (60 < r ∧ r ≤ 500)
    · rw [List.filter_cons_of_pos (by simpa using hf), List.foldl_cons]
      have hstep : (if r > m ∧ r ≤ 500 then r else m) = max m r := by
        by_cases hrm : m < r
        · rw [if_pos ⟨hrm, hf.2⟩, max_eq_right (le_of_lt hrm)]
        · rw [if_neg (fun hh => hrm hh.1), max_eq_left (Nat.le_of_not_lt hrm)]
      rw [hstep]
      exact ih _ (le_trans hm (le_max_left m r))
    · rw [List.filter_cons_of_neg (by simpa using hf)]
      have hstep : (if r > m ∧ r ≤ 500 then r else m) = m := by
        rw [if_neg]
        intro hh
        exact hf ⟨lt_of_le_of_lt hm hh.1, hh.2⟩
      rw [hstep]
      exact ih m hm

lemma foldl_max_ge_init (l : List Nat) : ∀ m : Nat, m ≤ l.foldl max m := by
  induction l with
  | nil => intro m; exact le_refl m
  | cons r t ih =>
    intro m
    rw [List.foldl_cons]
    exact le_trans (le_max_left m r) (ih _)

lemma foldl_max_ub (l : List Nat) : ∀ m x : Nat, x ∈ l → x ≤ l.foldl max m := by
  induction l with
  | nil => intro m x hx; cases hx
  | cons r t ih =>
    intro m x hx
    rw [List.foldl_cons]
    rcases List.mem_cons.mp hx with rfl | hx
    · exact le_trans (le_max_right m x) (foldl_max_ge_init t _)
    · exact ih _ x hx

lemma foldl_max_mem (l : List Nat) : ∀ m : Nat, l.foldl max m = m ∨ l.foldl max m ∈ l := by
  induction l with
  | nil => intro m; left; rfl
  | cons r t ih =>
    intro m
    rw [List.foldl_cons]
    rcases ih (max m r) with h | h
    · rw [h]
      rcases max_choice m r with hm | hm
      · left; exact hm
      · right; rw [hm]; exact List.mem_cons_self r t
    · right; exact List.mem_cons_of_mem r h

lemma parse_edid_mrr (text : List Char) (display : DisplayInfo) :
    (parse_edid_capabilities text display).max_refresh_rate =
      ((hzCaptures text).filterMap parseU32).foldl
        (fun m r => if r > m ∧ r ≤ 500 then r else m) 60 := by
  have h60 := fold_step_ge ((hzCaptures text).filterMap parseU32) 60
  simp only [parse_edid_capabilities]
  rw [if_neg (Nat.not_lt.mpr h60)]

/-- C4: when the decoded text yields at least one regex-extracted Hz number
strictly above 60 and at most 500, the inferred maximum refresh rate is the
maximum of those qualifying numbers (values above 500 discarded); and the
concrete text with both 144.00 Hz and 1200 Hz infers 144. -/
theorem c4_hz_extraction_max (text : List Char) (display : DisplayInfo)
    (h : ((hzCaptures text).filterMap parseU32).filter
        (fun r => decide (60 < r ∧ r ≤ 500)) ≠ []) :
    ((parse_edid_capabilities text display).max_refresh_rate ∈
        ((hzCaptures text).filterMap parseU32).filter
          (fun r => decide (60 < r ∧ r ≤ 500)) ∧
      ∀ r ∈ ((hzCaptures text).filterMap parseU32).filter
          (fun r => decide (60 < r ∧ r ≤ 500)),
        r ≤ (parse_edid_capabilities text display).max_refresh_rate) ∧
    (parse_edid_capabilities ("144.00 Hz and 1200 Hz".data) display).max_refresh_rate = 144 := by
  refine ⟨?_, rfl⟩
  have hmrr : (parse_edid_capabilities text display).max_refresh_rate =
      (((hzCaptures text).filterMap parseU32).filter
        (fun r => decide (60 < r ∧ r ≤ 500))).foldl max 60 := by
    rw [parse_edid_mrr]
    exact fold_step_eq_fold_max _ 60 (le_refl 60)
  rw [hmrr]
  refine ⟨?_, fun r hr => foldl_max_ub _ 60 r hr⟩
  rcases foldl_max_mem (((hzCaptures text).filterMap parseU32).filter
      (fun r => decide (60 < r ∧ r ≤ 500))) 60 with h0 | hm
  · exfalso
    obtain ⟨x, hx⟩ := List.exists_mem_of_ne_nil _ h
    have hub := foldl_max_ub _ 60 x hx
    rw [h0] at hub
    have hpred := List.of_mem_filter hx
    have h60x : 60 < x := (of_decide_eq_true hpred).1
    omega
  · exact hm

theorem c4_hz_extraction_max_witness :
    (((hzCaptures ("144.00 Hz and 1200 Hz".data)).filterMap parseU32).filter
        (fun r => decide (60 < r ∧ r ≤ 500)) ≠ []) ∧
    (((parse_edid_capabilities ("144.00 Hz and 1200 Hz".data)
          ⟨"card0-DP-1", "/sys/class/drm/card0-DP-1", "1920x1080", 1920, 1080⟩).max_refresh_rate ∈
        ((hzCaptures ("144.00 Hz and 1200 Hz".data)).filterMap parseU32).filter
          (fun r => decide (60 < r ∧ r ≤ 500)) ∧
      ∀ r ∈ ((hzCaptures ("144.00 Hz and 1200 Hz".data)).filterMap parseU32).filter
          (fun r => decide (60 < r ∧ r ≤ 500)),
        r ≤ (parse_edid_capabilities ("144.00 Hz and 1200 Hz".data)
          ⟨"card0-DP-1", "/sys/class/drm/card0-DP-1", "1920x1080", 1920, 1080⟩).max_refresh_rate) ∧
    (parse_edid_capabilities ("144.00 Hz and 1200 Hz".data)
          ⟨"card0-DP-1", "/sys/class/drm/card0-DP-1", "1920x1080", 1920, 1080⟩).max_refresh_rate = 144) :=
  ⟨by decide, c4_hz_extraction_max ("144.00 Hz and 1200 Hz".data)
    ⟨"card0-DP-1", "/sys/class/drm/card0-DP-1", "1920x1080", 1920, 1080⟩ (by decide)⟩

/-- C6: on the decoded-text path, each user override acts independently and
with the precedence forced-on beats forced-off beats inferred: force_vrr
alone yields vrr=true whatever the text and whatever no_vrr; likewise
force_hdr; with the forced-on flag unset, the forced-off flag yields false
even when the text infers true; and an explicit numeric refresh-rate
override always replaces the inferred maximum, whatever the flags. -/
theorem c6_override_precedence (display : DisplayInfo) (data : List Nat)
    (text : String) (d rres : Option String) (rr : Option Nat)
    (fv fh nv nh : Bool) (r : Nat) (caps : DisplayCapabilities)
    (hdata : data ≠ [])
    (hdet : detect_capabilities display (Args.mk d rres rr fv fh nv nh false)
      ⟨true, EdidRead.bytes data, some text⟩ = Except.ok caps) :
    (fv = true → caps.vrr = true) ∧
    (fh = true → caps.hdr = true) ∧
    (fv = false → nv = true → caps.vrr = false) ∧
    (fh = false → nh = true → caps.hdr = false) ∧
    (rr = some r → caps.max_refresh_rate = r) := by
  cases data with
  | nil => exact absurd rfl hdata
  | cons b bs =>
    simp only [detect_capabilities] at hdet
    simp only [Bool.false_eq_true, if_false, Bool.not_true, List.isEmpty_cons] at hdet
    rw [Except.ok.injEq] at hdet
    subst hdet
    refine ⟨?_, ?_, ?_, ?_, ?_⟩
    · intro hfv
      subst hfv
      cases fh <;> cases nh <;> cases rr <;> simp
    · intro hfh
      subst hfh
      cases fv <;> cases nv <;> cases rr <;> simp
    · intro hfv hnv
      subst hfv
      subst hnv
      cases fh <;> cases nh <;> cases rr <;> simp
    · intro hfh hnh
      subst hfh
      subst hnh
      cases fv <;> cases nv <;> cases rr <;> simp
    · intro hrr
      subst hrr
      cases fv <;> cases nv <;> cases fh <;> cases nh <;> simp

theorem c6_override_precedence_witness :
    ([0] : List Nat) ≠ [] ∧
    detect_capabilities ⟨"card0-DP-1", "/sys/class/drm/card0-DP-1", "1920x1080", 1920, 1080⟩
      (Args.mk none none (some 75) true true true true false)
      ⟨true, EdidRead.bytes [0], some ""⟩ =
      Except.ok { vrr := true, hdr := true, max_refresh_rate := 75, max_bpc := 8 } ∧
    ((true = true →
       ({ vrr := true, hdr := true, max_refresh_rate := 75, max_bpc := 8 } : DisplayCapabilities).vrr = true) ∧
     (true = true →
       ({ vrr := true, hdr := true, max_refresh_rate := 75, max_bpc := 8 } : DisplayCapabilities).hdr = true) ∧
     (true = false → true = true →
       ({ vrr := true, hdr := true, max_refresh_rate := 75, max_bpc := 8 } : DisplayCapabilities).vrr = false) ∧
     (true = false → true = true →
       ({ vrr := true, hdr := true, max_refresh_rate := 75, max_bpc := 8 } : DisplayCapabilities).hdr = false) ∧
     ((some 75 : Option Nat) = some 75 →
       ({ vrr := true, hdr := true, max_refresh_rate := 75, max_bpc := 8 } : DisplayCapabilities).max_refresh_rate = 75)) :=
  ⟨by decide, rfl,
   c6_override_precedence ⟨"card0-DP-1", "/sys/class/drm/card0-DP-1", "1920x1080", 1920, 1080⟩
     [0] "" none none (some 75) true true true true 75
     { vrr := true, hdr := true, max_refresh_rate := 75, max_bpc := 8 }
     (by decide) rfl⟩

lemma next_mk (ds : List DisplayInfo) (i : Nat) (q : Bool) (sd : Option DisplayInfo)
    (hne : ds ≠ []) :
    (TuiApp.mk ds (some i) q sd).next =
      TuiApp.mk ds (some (if i ≥ ds.length - 1 then 0 else i + 1)) q sd := by
  have hempty : ds.isEmpty = false := by
    cases ds with
    | nil => exact absurd rfl hne
    | cons a t => rfl
  simp [TuiApp.next, hempty]

lemma previous_mk (ds : List DisplayInfo) (i : Nat) (q : Bool) (sd : Option DisplayInfo)
    (hne : ds ≠ []) :
    (TuiApp.mk ds (some i) q sd).previous =
      TuiApp.mk ds (some (if i = 0 then ds.length - 1 else i - 1)) q sd := by
  have hempty : ds.isEmpty = false := by
    cases ds with
    | nil => exact absurd rfl hne
    | cons a t => rfl
  simp [TuiApp.previous, hempty]

lemma iter_next_selected (k : Nat) :
    ∀ (ds : List DisplayInfo) (i : Nat) (q : Bool) (sd : Option DisplayInfo),
      ds ≠ [] → i < ds.length →
      iterSteps TuiApp.next k (TuiApp.mk ds (some i) q sd) =
        TuiApp.mk ds (some ((i + k) % ds.length)) q sd := by
  induction k with
  | zero =>
    intro ds i q sd hne hi
    simp only [iterSteps]
    rw [Nat.add_zero, Nat.mod_eq_of_lt hi]
  | succ k ih =>
    intro ds i q sd hne hi
    have hlen : 0 < ds.length := List.length_pos.mpr hne
    simp only [iterSteps]
    rw [next_mk ds i q sd hne]
    by_cases hcase : i ≥ ds.length - 1
    · rw [if_pos hcase]
      rw [ih ds 0 q sd hne hlen]
      have harg : i + (k + 1) = ds.length + k := by omega
      rw [harg, Nat.add_mod_left, Nat.zero_add]
    · rw [if_neg hcase]
      have hlt : i + 1 < ds.length := by omega
      rw [ih ds (i + 1) q sd hne hlt]
      have harg : i + 1 + k = i + (k + 1) := by omega
      rw [harg]

lemma iter_previous_selected (k : Nat) :
    ∀ (ds : List DisplayInfo) (i : Nat) (q : Bool) (sd : Option DisplayInfo),
      ds ≠ [] → i < ds.length →
      iterSteps TuiApp.previous k (TuiApp.mk ds (some i) q sd) =
        TuiApp.mk ds (some ((i + k * (ds.length - 1)) % ds.length)) q sd := by
  induction k with
  | zero =>
    intro ds i q sd hne hi
    simp only [iterSteps]
    rw [Nat.zero_mul, Nat.add_zero, Nat.mod_eq_of_lt hi]
  | succ k ih =>
    intro ds i q sd hne hi
    have hlen : 0 < ds.length := List.length_pos.mpr hne
    simp only [iterSteps]
    rw [previous_mk ds i q sd hne]
    by_cases hcase : i = 0
    · rw [if_pos hcase]
      have hlt : ds.length - 1 < ds.length := by omega
      rw [ih ds (ds.length - 1) q sd hne hlt]
      have harg : ds.length - 1 + k * (ds.length - 1) = i + (k + 1) * (ds.length - 1) := by
        rw [Nat.succ_mul]
        omega
      rw [harg]
    · rw [if_neg hcase]
      have hlt : i - 1 < ds.length := by omega
      rw [ih ds (i - 1) q sd hne hlt]
      have harg : i + (k + 1) * (ds.length - 1) = (i - 1 + k * (ds.length - 1)) + ds.length := by
        rw [Nat.succ_mul]
        have h1 : 1 ≤ i := Nat.one_le_iff_ne_zero.mpr hcase
        generalize k * (ds.length - 1) = M
        omega
      rw [harg, Nat.add_mod_right]

lemma new_mk (ds : List DisplayInfo) (hne : ds ≠ []) :
    TuiApp.new ds = TuiApp.mk ds (some 0) false none := by
  have hempty : ds.isEmpty = false := by
    cases ds with
    | nil => exact absurd rfl hne
    | cons a t => rfl
  simp [TuiApp.new, hempty]

/-- C7: on a non-empty list of length N, starting from highlighted index 0,
N MoveDown steps return the highlight to index 0, and so do N MoveUp steps. -/
theorem c7_wraparound (ds : List DisplayInfo) (h : ds ≠ []) :
    (iterSteps TuiApp.next ds.length (TuiApp.new ds)).selected = some 0 ∧
    (iterSteps TuiApp.previous ds.length (TuiApp.new ds)).selected = some 0 := by
  have hlen : 0 < ds.length := List.length_pos.mpr h
  rw [new_mk ds h]
  constructor
  · rw [iter_next_selected ds.length ds 0 false none h hlen]
    rw [Nat.zero_add, Nat.mod_self]
  · rw [iter_previous_selected ds.length ds 0 false none h hlen]
    rw [Nat.zero_add, Nat.mul_mod_right]

theorem c7_wraparound_witness :
    ([⟨"card0-DP-1", "p0", "1920x1080", 1920, 1080⟩,
      ⟨"card1-HDMI-A-1", "p1", "3840x2160", 3840, 2160⟩,
      ⟨"card1-DP-2", "p2", "2560x1440", 2560, 1440⟩] : List DisplayInfo) ≠ [] ∧
    ((iterSteps TuiApp.next 3 (TuiApp.new
        [⟨"card0-DP-1", "p0", "1920x1080", 1920, 1080⟩,
         ⟨"card1-HDMI-A-1", "p1", "3840x2160", 3840, 2160⟩,
         ⟨"card1-DP-2", "p2", "2560x1440", 2560, 1440⟩])).selected = some 0 ∧
     (iterSteps TuiApp.previous 3 (TuiApp.new
        [⟨"card0-DP-1", "p0", "1920x1080", 1920, 1080⟩,
         ⟨"card1-HDMI-A-1", "p1", "3840x2160", 3840, 2160⟩,
         ⟨"card1-DP-2", "p2", "2560x1440", 2560, 1440⟩])).selected = some 0) :=
  ⟨by decide, c7_wraparound
    [⟨"card0-DP-1", "p0", "1920x1080", 1920, 1080⟩,
     ⟨"card1-HDMI-A-1", "p1", "3840x2160", 3840, 2160⟩,
     ⟨"card1-DP-2", "p2", "2560x1440", 2560, 1440⟩] (by decide)⟩

lemma previous_next (app : TuiApp) (i : Nat) (hne : app.displays ≠ [])
    (hsel : app.selected = some i) (hi : i < app.displays.length) :
    app.next.previous = app := by
  obtain ⟨ds, sel, q, sd⟩ := app
  simp only at hne hsel hi
  subst hsel
  rw [next_mk ds i q sd hne]
  by_cases hcase : i ≥ ds.length - 1
  · rw [if_pos hcase]
    rw [previous_mk ds 0 q sd hne]
    rw [if_pos rfl]
    have : ds.length - 1 = i := by omega
    rw [this]
  · rw [if_neg hcase]
    rw [previous_mk ds (i + 1) q sd hne]
    rw [if_neg (by omega)]
    rw [Nat.add_sub_cancel]

/-- C9: a loop iteration applies the single drained controller event before
the single polled keyboard event, and a controller MoveDown followed by a
keyboard MoveUp in the same iteration nets to the unchanged state on a list
of length greater than one. -/
theorem c9_controller_before_keyboard (app : TuiApp) (i : Nat)
    (c : InputEvent) (k : KeyEvent)
    (h1 : 1 < app.displays.length) (h2 : app.selected = some i)
    (h3 : i < app.displays.length) :
    handleInputs app (some InputEvent.down) (some ⟨KeyCode.up, KeyEventKind.press⟩) = app ∧
    handleInputs app (some c) (some k) = applyKeyEvent (applyControllerInput app c) k := by
  refine ⟨?_, rfl⟩
  show app.next.previous = app
  exact previous_next app i (by intro hnil; rw [hnil] at h1; simp at h1) h2 h3

theorem c9_controller_before_keyboard_witness :
    1 < (TuiApp.new [⟨"card0-DP-1", "p0", "1920x1080", 1920, 1080⟩,
          ⟨"card1-HDMI-A-1", "p1", "3840x2160", 3840, 2160⟩]).displays.length ∧
    (TuiApp.new [⟨"card0-DP-1", "p0", "1920x1080", 1920, 1080⟩,
          ⟨"card1-HDMI-A-1", "p1", "3840x2160", 3840, 2160⟩]).selected = some 0 ∧
    0 < (TuiApp.new [⟨"card0-DP-1", "p0", "1920x1080", 1920, 1080⟩,
          ⟨"card1-HDMI-A-1", "p1", "3840x2160", 3840, 2160⟩]).displays.length ∧
    (handleInputs (TuiApp.new [⟨"card0-DP-1", "p0", "1920x1080", 1920, 1080⟩,
          ⟨"card1-HDMI-A-1", "p1", "3840x2160", 3840, 2160⟩])
        (some InputEvent.down) (some ⟨KeyCode.up, KeyEventKind.press⟩) =
       TuiApp.new [⟨"card0-DP-1", "p0", "1920x1080", 1920, 1080⟩,
          ⟨"card1-HDMI-A-1", "p1", "3840x2160", 3840, 2160⟩] ∧
     handleInputs (TuiApp.new [⟨"card0-DP-1", "p0", "1920x1080", 1920, 1080⟩,
          ⟨"card1-HDMI-A-1", "p1", "3840x2160", 3840, 2160⟩])
        (some InputEvent.up) (some ⟨KeyCode.enter, KeyEventKind.release⟩) =
       applyKeyEvent (applyControllerInput (TuiApp.new
          [⟨"card0-DP-1", "p0", "1920x1080", 1920, 1080⟩,
           ⟨"card1-HDMI-A-1", "p1", "3840x2160", 3840, 2160⟩]) InputEvent.up)
         ⟨KeyCode.enter, KeyEventKind.release⟩) :=
  ⟨by decide, by decide, by decide,
   c9_controller_before_keyboard
     (TuiApp.new [⟨"card0-DP-1", "p0", "1920x1080", 1920, 1080⟩,
        ⟨"card1-HDMI-A-1", "p1", "3840x2160", 3840, 2160⟩]) 0
     InputEvent.up ⟨KeyCode.enter, KeyEventKind.release⟩
     (by decide) (by decide) (by decide)⟩

end ConsoleMode
